import Mathlib

/-!
Verification of the unfoldy_web story-generation core: a shallow embedding of
the unified story service (prompt builder, cascading response repair, the
Gemini-to-OpenAI fallback orchestration) and of the game-state reducer with
its localStorage persistence, together with theorems settling the spec claims.

Strings are modelled as sequences of Unicode code points (Lean `String`); the
JavaScript source indexes by UTF-16 code units, which coincides on the
code-point level for all inputs considered here.
-/

namespace Unfoldy

/-- A JavaScript value as produced by `JSON.parse`: null, booleans, numbers
(kept as their source lexeme, since no claim depends on numeric value beyond
zero-ness), strings, arrays and objects (field lists in source order, later
duplicates shadowing earlier ones on access). -/
inductive Json where
  | null : Json
  | bool (b : Bool) : Json
  | num (lexeme : String) : Json
  | str (s : String) : Json
  | arr (elems : List Json) : Json
  | obj (fields : List (String × Json)) : Json

/-- Build a string from an explicit character list. -/
def ofChars (cs : List Char) : String := String.mk cs

/-- The JavaScript `\s` character class (also used by `String.prototype.trim`). -/
def jsWhitespace (c : Char) : Bool :=
  c = ' ' || c = '\t' || c = '\n' || c = '\r' || c.val = 0xb || c.val = 0xc ||
  c.val = 0xa0 || c.val = 0x1680 || (0x2000 ≤ c.val && c.val ≤ 0x200a) ||
  c.val = 0x2028 || c.val = 0x2029 || c.val = 0x202f || c.val = 0x205f ||
  c.val = 0x3000 || c.val = 0xfeff

/-- JavaScript `String.prototype.trim`. -/
def jsTrim (s : String) : String :=
  ofChars (((s.data.dropWhile jsWhitespace).reverse.dropWhile jsWhitespace).reverse)

/-- JavaScript `String.prototype.startsWith`, as a test on character lists. -/
def hasLead : List Char → List Char → Bool
  | [], _ => true
  | _ :: _, [] => false
  | p :: ps, c :: cs => p = c && hasLead ps cs

/-- `s.startsWith(pre)` in JavaScript. -/
def jsStartsWith (s pre : String) : Bool := hasLead pre.data s.data

/-- Index of the first occurrence of `pat` as a contiguous block of `cs`. -/
def findSub (pat : List Char) : List Char → Option Nat
  | [] => if pat.isEmpty then some 0 else none
  | c :: rest =>
    if hasLead pat (c :: rest) then some 0
    else (findSub pat rest).map (· + 1)

/-! ### JSON.parse -/

/-- JSON insignificant whitespace (strictly space, tab, newline, return). -/
def jsonWs (c : Char) : Bool := c = ' ' || c = '\t' || c = '\n' || c = '\r'

def jpSkipWs (cs : List Char) : List Char := cs.dropWhile jsonWs

def hexDigitVal (c : Char) : Option Nat :=
  if '0' ≤ c ∧ c ≤ '9' then some (c.toNat - '0'.toNat)
  else if 'a' ≤ c ∧ c ≤ 'f' then some (c.toNat - 'a'.toNat + 10)
  else if 'A' ≤ c ∧ c ≤ 'F' then some (c.toNat - 'A'.toNat + 10)
  else none

/-- Decode the four hex digits of a `\uXXXX` escape. -/
def hex4 : List Char → Option (Nat × List Char)
  | a :: b :: c :: d :: rest =>
    match hexDigitVal a, hexDigitVal b, hexDigitVal c, hexDigitVal d with
    | some va, some vb, some vc, some vd =>
      some (((va * 16 + vb) * 16 + vc) * 16 + vd, rest)
    | _, _, _, _ => none
  | _ => none

/-- JSON string body after the opening quote. Characters below 0x20 must be
escaped; `\uXXXX` surrogate pairs are combined (a lone surrogate, which
JavaScript would keep as-is, is approximated by `Char.ofNat`'s fallback —
no claim exercises that corner). -/
def jpStringBody (fuel : Nat) (acc : List Char) (cs : List Char) :
    Option (String × List Char) :=
  match fuel with
  | 0 => none
  | fuel + 1 =>
    match cs with
    | [] => none
    | '"' :: rest => some (ofChars acc.reverse, rest)
    | '\\' :: e :: rest =>
      match e with
      | '"' => jpStringBody fuel ('"' :: acc) rest
      | '\\' => jpStringBody fuel ('\\' :: acc) rest
      | '/' => jpStringBody fuel ('/' :: acc) rest
      | 'b' => jpStringBody fuel ('\x08' :: acc) rest
      | 'f' => jpStringBody fuel ('\x0c' :: acc) rest
      | 'n' => jpStringBody fuel ('\n' :: acc) rest
      | 'r' => jpStringBody fuel ('\r' :: acc) rest
      | 't' => jpStringBody fuel ('\t' :: acc) rest
      | 'u' =>
        match hex4 rest with
        | none => none
        | some (n, rest2) =>
          if 0xd800 ≤ n ∧ n ≤ 0xdbff then
            match rest2 with
            | '\\' :: 'u' :: rest3 =>
              match hex4 rest3 with
              | some (m, rest4) =>
                if 0xdc00 ≤ m ∧ m ≤ 0xdfff then
                  let code := 0x10000 + (n - 0xd800) * 0x400 + (m - 0xdc00)
                  jpStringBody fuel (Char.ofNat code :: acc) rest4
                else jpStringBody fuel (Char.ofNat n :: acc) rest2
              | none => jpStringBody fuel (Char.ofNat n :: acc) rest2
            | _ => jpStringBody fuel (Char.ofNat n :: acc) rest2
          else jpStringBody fuel (Char.ofNat n :: acc) rest2
      | _ => none
    | '\\' :: [] => none
    | c :: rest =>
      if c.val < 0x20 then none else jpStringBody fuel (c :: acc) rest

/-- Parse a JSON string literal; `cs` must begin with the opening quote. -/
def jpString (cs : List Char) : Option (String × List Char) :=
  match cs with
  | '"' :: rest => jpStringBody (rest.length + 1) [] rest
  | _ => none

def isDigit (c : Char) : Bool := '0' ≤ c && c ≤ '9'

/-- Parse a JSON number, returning its lexeme. Grammar:
`-? (0 | [1-9][0-9]*) (. [0-9]+)? ([eE][+-]?[0-9]+)?`. -/
def jpNumber (cs : List Char) : Option (String × List Char) :=
  let (sign, cs1) :=
    match cs with
    | '-' :: rest => (['-'], rest)
    | _ => (([] : List Char), cs)
  match cs1 with
  | [] => none
  | c :: rest =>
    if c = '0' then jpNumberFrac (sign ++ ['0']) rest
    else if isDigit c then
      let digits := rest.takeWhile isDigit
      jpNumberFrac (sign ++ c :: digits) (rest.drop digits.length)
    else none
where
  jpNumberFrac (lex : List Char) (cs : List Char) : Option (String × List Char) :=
    match cs with
    | '.' :: rest =>
      let digits := rest.takeWhile isDigit
      if digits.isEmpty then none
      else jpNumberExp (lex ++ '.' :: digits) (rest.drop digits.length)
    | _ => jpNumberExp lex cs
  jpNumberExp (lex : List Char) (cs : List Char) : Option (String × List Char) :=
    match cs with
    | c :: rest =>
      if c = 'e' ∨ c = 'E' then
        let (sgn, rest2) :=
          match rest with
          | s :: r2 => if s = '+' ∨ s = '-' then ([s], r2) else (([] : List Char), rest)
          | [] => ([], rest)
        let digits := rest2.takeWhile isDigit
        if digits.isEmpty then none
        else some (ofChars (lex ++ c :: sgn ++ digits), rest2.drop digits.length)
      else some (ofChars lex, cs)
    | [] => some (ofChars lex, [])

/-- Mode of the fuel-indexed JSON parser: a single value, the remaining
elements of an array, or the remaining members of an object. -/
inductive JpMode where
  | value : JpMode
  | elems (acc : List Json) : JpMode
  | fields (acc : List (String × Json)) : JpMode

/-- The recursive core of `JSON.parse` (fuel-indexed so that it is structural
and kernel-reducible; the fuel supplied by `jsonParse` is always sufficient). -/
def jp (fuel : Nat) (mode : JpMode) (cs : List Char) : Option (Json × List Char) :=
  match fuel with
  | 0 => none
  | fuel + 1 =>
    match mode with
    | .value =>
      let cs := jpSkipWs cs
      match cs with
      | [] => none
      | c :: rest =>
        if c = '"' then
          (jpString cs).map (fun (s, r) => (Json.str s, r))
        else if c = 't' then
          if hasLead ['r', 'u', 'e'] rest then some (Json.bool true, rest.drop 3)
          else none
        else if c = 'f' then
          if hasLead ['a', 'l', 's', 'e'] rest then some (Json.bool false, rest.drop 4)
          else none
        else if c = 'n' then
          if hasLead ['u', 'l', 'l'] rest then some (Json.null, rest.drop 3)
          else none
        else if c = '{' then
          let rest2 := jpSkipWs rest
          match rest2 with
          | '}' :: rest3 => some (Json.obj [], rest3)
          | _ => jp fuel (.fields []) rest2
        else if c = '[' then
          let rest2 := jpSkipWs rest
          match rest2 with
          | ']' :: rest3 => some (Json.arr [], rest3)
          | _ => jp fuel (.elems []) rest2
        else if c = '-' ∨ isDigit c then
          (jpNumber cs).map (fun (lx, r) => (Json.num lx, r))
        else none
    | .elems acc =>
      match jp fuel .value cs with
      | none => none
      | some (v, rest) =>
        match jpSkipWs rest with
        | ',' :: rest2 => jp fuel (.elems (v :: acc)) rest2
        | ']' :: rest2 => some (Json.arr (v :: acc).reverse, rest2)
        | _ => none
    | .fields acc =>
      let cs := jpSkipWs cs
      match jpString cs with
      | none => none
      | some (k, rest) =>
        match jpSkipWs rest with
        | ':' :: rest2 =>
          match jp fuel .value rest2 with
          | none => none
          | some (v, rest3) =>
            match jpSkipWs rest3 with
            | ',' :: rest4 => jp fuel (.fields ((k, v) :: acc)) rest4
            | '}' :: rest4 => some (Json.obj ((k, v) :: acc).reverse, rest4)
            | _ => none
        | _ => none

/-- `JSON.parse`: the parsed value when the text is valid JSON, `none` when
`JSON.parse` would throw. -/
def jsonParse (s : String) : Option Json :=
  match jp (4 * s.data.length + 16) .value s.data with
  | some (v, rest) => if (jpSkipWs rest).isEmpty then some v else none
  | none => none

/-- Property access `v.k` on a JavaScript value: `none` is `undefined`
(missing field or primitive receiver); later duplicate keys shadow earlier
ones. Access on `null` throws and is handled at each use site. -/
def jsField (v : Json) (k : String) : Option Json :=
  match v with
  | .obj fs => (fs.reverse.find? (fun p => p.1 = k)).map (·.2)
  | _ => none

/-- JavaScript truthiness of a parsed JSON value. (A float literal whose
mantissa is nonzero but which underflows to 0 would be falsy in JavaScript;
that corner is not exercised by any claim.) -/
def jsTruthy : Json → Bool
  | .null => false
  | .bool b => b
  | .num lexeme =>
    ((lexeme.data.takeWhile (fun c => c ≠ 'e' ∧ c ≠ 'E')).any
      (fun c => '1' ≤ c && c ≤ '9'))
  | .str s => s ≠ ""
  | .arr _ => true
  | .obj _ => true

/-- `x || d` for an optionally-present field `x` and string default `d`. -/
def jsOrStr (o : Option Json) (d : String) : Json :=
  match o with
  | some v => if jsTruthy v then v else .str d
  | none => .str d

/-! ### The regex steps of the response-repair cascade -/

def backticks : List Char := ['`', '`', '`']

/-- Left-to-right scan for the first viable start of the markdown-fence
regex: three backticks with a later closing three backticks. Returns the
suffix beginning at the match. -/
def fenceStart : List Char → Option (List Char)
  | [] => none
  | c :: rest =>
    if hasLead backticks (c :: rest) && (findSub backticks (rest.drop 2)).isSome
    then some (c :: rest)
    else fenceStart rest

/-- The capture of the markdown-fence regex (three backticks, an optional
`json` tag, leading whitespace, then a lazy capture up to the closing three
backticks), if it matches. -/
def fenceMatch (cs : List Char) : Option (List Char) :=
  match fenceStart cs with
  | none => none
  | some s =>
    let t := s.drop 3
    let t := if hasLead ['j', 's', 'o', 'n'] t then t.drop 4 else t
    let t := t.dropWhile jsWhitespace
    match findSub backticks t with
    | some j => some (t.take j)
    | none => none

/-- The greedy brace-to-brace regex: the span from the first opening brace to
the last closing brace, when the latter comes after the former. -/
def objectSpan (cs : List Char) : Option (List Char) :=
  match cs.findIdx? (· = '{'), cs.reverse.findIdx? (· = '}') with
  | some a, some rb =>
    let b := cs.length - 1 - rb
    if a < b then some ((cs.drop a).take (b - a + 1)) else none
  | _, _ => none

def narrativeChars : List Char := ['n', 'a', 'r', 'r', 'a', 't', 'i', 'v', 'e']
def imagePromptChars : List Char := ['i', 'm', 'a', 'g', 'e', 'P', 'r', 'o', 'm', 'p', 't']
def choicesChars : List Char := ['c', 'h', 'o', 'i', 'c', 'e', 's']

/-- The closing alternation of the field-extraction regex: a quote followed
(after whitespace) by end of text, a closing brace, or a comma introducing
another recognized field name. -/
def closesAt (cs : List Char) : Bool :=
  match cs with
  | '"' :: rest =>
    match rest.dropWhile jsWhitespace with
    | [] => true
    | '}' :: _ => true
    | ',' :: r2 =>
      match r2.dropWhile jsWhitespace with
      | '"' :: r4 =>
        hasLead narrativeChars r4 || hasLead imagePromptChars r4 ||
          hasLead choicesChars r4
      | _ => false
    | _ => false
  | _ => false

/-- Lazy capture: the shortest leading segment whose remainder satisfies the
closing alternation. -/
def scanUntilClose (acc : List Char) : List Char → Option (List Char)
  | [] => none
  | c :: rest =>
    if closesAt (c :: rest) then some acc.reverse
    else scanUntilClose (c :: acc) rest

/-- If `cs` begins with `"field"` then colon then an opening quote (with
whitespace allowed around the colon), the suffix after that opening quote. -/
def fieldOpener (field : List Char) (cs : List Char) : Option (List Char) :=
  match cs with
  | '"' :: r =>
    if hasLead field r then
      match r.drop field.length with
      | '"' :: r3 =>
        match r3.dropWhile jsWhitespace with
        | ':' :: r5 =>
          match r5.dropWhile jsWhitespace with
          | '"' :: r7 => some r7
          | _ => none
        | _ => none
      | _ => none
    else none
  | _ => none

/-- The engine loop of `extractField`: try each start position left to right;
a start whose opener matches but has no viable close is abandoned and the
scan resumes one character later, exactly as the regex engine does. -/
def extractFieldGo (field : List Char) : List Char → Option String
  | [] => none
  | c :: rest =>
    match fieldOpener field (c :: rest) with
    | some afterQuote =>
      match scanUntilClose [] afterQuote with
      | some cap => some (jsTrim (ofChars cap))
      | none => extractFieldGo field rest
    | none => extractFieldGo field rest

/-- `extractField` from the story service: boundary-aware extraction of a
string field from malformed JSON text, `none` when the pattern never matches. -/
def extractField (text : String) (fieldName : String) : Option String :=
  extractFieldGo fieldName.data text.data

/-- If `cs` begins with `"choices"` then colon then an opening bracket, the
suffix after the bracket. -/
def choicesOpener (cs : List Char) : Option (List Char) :=
  match cs with
  | '"' :: r =>
    if hasLead choicesChars r then
      match r.drop choicesChars.length with
      | '"' :: r3 =>
        match r3.dropWhile jsWhitespace with
        | ':' :: r5 =>
          match r5.dropWhile jsWhitespace with
          | '[' :: r7 => some r7
          | _ => none
        | _ => none
      | _ => none
    else none
  | _ => none

/-- Engine loop locating the lazily-captured interior of the choices array. -/
def choicesArrayGo : List Char → Option (List Char)
  | [] => none
  | c :: rest =>
    match choicesOpener (c :: rest) with
    | some afterBracket =>
      let body := afterBracket.takeWhile (· ≠ ']')
      if (afterBracket.drop body.length).isEmpty then choicesArrayGo rest
      else some body
    | none => choicesArrayGo rest

/-- All matches of the global regex for a quoted string with at least one
non-quote character, scanning left to right; an immediately-closed pair of
quotes cannot match, so its second quote may open the next match. -/
def quotedItems (fuel : Nat) (cs : List Char) : List (List Char) :=
  match fuel with
  | 0 => []
  | fuel + 1 =>
    match cs with
    | [] => []
    | '"' :: rest =>
      let body := rest.takeWhile (· ≠ '"')
      if body.isEmpty then quotedItems fuel rest
      else
        match rest.drop body.length with
        | '"' :: rest2 => body :: quotedItems fuel rest2
        | _ => []
    | _ :: rest => quotedItems fuel rest

/-- `extractChoices` from the story service: the quoted segments of the
choices array literal, trimmed, capped at 3. -/
def extractChoices (text : String) : List String :=
  match choicesArrayGo text.data with
  | none => []
  | some body =>
    ((quotedItems (body.length + 1) body).map (fun b => jsTrim (ofChars b))).take 3

/-! ### The escape-repair replacement -/

/-- Lookbehind of the repair regex: the (reversed) text before the current
position ends with a colon, optional whitespace, then an opening quote. -/
def lookbehindOK (revPre : List Char) : Bool :=
  match revPre with
  | '"' :: r =>
    match r.dropWhile jsWhitespace with
    | ':' :: _ => true
    | _ => false
  | _ => false

/-- Lookahead of the repair regex: a quote followed by optional whitespace
and then a comma or closing brace. -/
def aheadOK (cs : List Char) : Bool :=
  match cs with
  | '"' :: r =>
    match r.dropWhile jsWhitespace with
    | ',' :: _ => true
    | '}' :: _ => true
    | _ => false
  | _ => false

/-- Lazy scan for the shortest capture whose remainder satisfies the repair
lookahead; returns the capture and the remainder. -/
def repairScan (acc : List Char) : List Char → Option (List Char × List Char)
  | [] => none
  | c :: rest =>
    if aheadOK (c :: rest) then some (acc.reverse, c :: rest)
    else repairScan (c :: acc) rest

/-- The inner replacement: escape each double quote not already preceded by a
backslash (the preceding character is taken from the original text). -/
def escInner (prev : Option Char) : List Char → List Char
  | [] => []
  | c :: rest =>
    if c = '"' && prev ≠ some '\\' then '\\' :: '"' :: escInner (some '"') rest
    else c :: escInner (some c) rest

/-- The global-replace engine for the repair regex. `revPre` is the reversed
original text before the scan position, `out` the reversed output; a
zero-length match copies one character and advances, as the engine does to
escape an empty match. -/
def jsRepairGo (fuel : Nat) (revPre out cur : List Char) : List Char :=
  match fuel with
  | 0 => out.reverse ++ cur
  | fuel + 1 =>
    match cur with
    | [] => out.reverse
    | c :: rest =>
      if lookbehindOK revPre then
        match repairScan [] (c :: rest) with
        | some (cap, rest2) =>
          if cap.isEmpty then jsRepairGo fuel (c :: revPre) (c :: out) rest
          else
            jsRepairGo fuel (cap.reverse ++ revPre)
              ((escInner none cap).reverse ++ out) rest2
        | none => jsRepairGo fuel (c :: revPre) (c :: out) rest
      else jsRepairGo fuel (c :: revPre) (c :: out) rest

/-- The repair replacement applied in strategy 3 of `parseResponse`. -/
def jsRepair (s : String) : String :=
  ofChars (jsRepairGo (s.data.length + 1) [] [] s.data)

/-! ### parseResponse -/

/-- The parser's structured output: `\x7bnarrative, imagePrompt, choices\x7d`.
Fields hold the JavaScript values the source produces (strings in every
well-behaved case). -/
structure GenerationResult where
  narrative : Json
  imagePrompt : Json
  choices : List Json

/-- The fixed last-resort choice list. -/
def fallbackChoices : List Json :=
  [.str "Continue forward", .str "Look around", .str "Take a different path"]

/-- The preprocessing of `parseResponse`: trim, strip a markdown fence,
narrow to the brace-to-brace span. -/
def preJsonStr (rawText : String) : String :=
  let jsonStr := jsTrim rawText
  let jsonStr :=
    match fenceMatch jsonStr.data with
    | some cap => jsTrim (ofChars cap)
    | none => jsonStr
  match objectSpan jsonStr.data with
  | some sp => ofChars sp
  | none => jsonStr

/-- Strategy 1 (and the parse step of strategy 3): `JSON.parse` then build the
result, with falsy narrative and imagePrompt defaulted and non-array choices
emptied. `JSON.parse` returning `null` makes the subsequent property access
throw inside the try block, so it also yields `none`. -/
def strategy1 (jsonStr : String) : Option GenerationResult :=
  match jsonParse jsonStr with
  | none => none
  | some .null => none
  | some v =>
    some
      { narrative := jsOrStr (jsField v "narrative") "The story continues..."
        imagePrompt := jsOrStr (jsField v "imagePrompt") ""
        choices :=
          match jsField v "choices" with
          | some (.arr xs) => xs.take 3
          | _ => [] }

/-- The last-resort result: the raw text with brace and quote characters
removed, truncated to 500 characters, plus the fixed generic choices. -/
def lastResort (rawText : String) : GenerationResult :=
  { narrative :=
      .str (ofChars ((rawText.data.filter
        (fun c => ¬(c = '{' ∨ c = '}' ∨ c = '"'))).take 500))
    imagePrompt := .str ""
    choices := fallbackChoices }

/-- Strategy 3 then the final fallback: repair unescaped interior quotes,
re-parse, and if that also fails return the last-resort result. -/
def strategy3 (rawText jsonStr : String) : GenerationResult :=
  match strategy1 (jsRepair jsonStr) with
  | some r => r
  | none => lastResort rawText

/-- `parseResponse` from the story service: the full repair cascade. -/
def parseResponse (rawText : String) : GenerationResult :=
  let jsonStr := preJsonStr rawText
  match strategy1 jsonStr with
  | some r => r
  | none =>
    let narrative := extractField jsonStr "narrative"
    let imagePrompt := extractField jsonStr "imagePrompt"
    let choices := extractChoices jsonStr
    match narrative with
    | some n =>
      if n = "" then strategy3 rawText jsonStr
      else
        { narrative := .str n
          imagePrompt :=
            .str (match imagePrompt with | some i => i | none => "")
          choices := if choices.length > 0 then choices.map .str else [] }
    | none => strategy3 rawText jsonStr

/-! ### Prompt builder -/

/-- A prior turn as the prompt builder consumes it: its narrative and the
choice the player made (absent or empty when none was recorded). -/
structure StoryTurnRecord where
  narrative : String
  choiceMade : Option String

/-- The story-state fields destructured by `buildStoryPrompt`. -/
structure StoryState where
  currentTurn : Nat
  maxTurns : Nat
  genre : String
  artStylePrompt : String
  history : List StoryTurnRecord

/-- Truthiness of an optional string field (`h.choiceMade` in the source). -/
def jsStrTruthy (o : Option String) : Bool :=
  match o with
  | some c => c ≠ ""
  | none => false

/-- The fixed turn-indexed `PACING` table; keys outside 1..10 yield the empty
instruction via the source's defaulting. -/
def PACING (turn : Nat) : String :=
  match turn with
  | 1 => "Introduction: Set the scene and introduce the protagonist. Establish the world and tone."
  | 2 => "Rising Action: Introduce the first challenge or mystery. Build intrigue."
  | 3 => "Rising Action: Deepen the conflict. Introduce a secondary character or complication."
  | 4 => "Rising Action: Raise the stakes. Something unexpected happens."
  | 5 => "Rising Action: Build tension. The protagonist faces a difficult decision."
  | 6 => "Rising Action: The situation becomes dire. Foreshadow the coming climax."
  | 7 => "CLIMAX: This is the turning point! Maximum tension, danger, or revelation. The protagonist faces their greatest challenge."
  | 8 => "Falling Action: The aftermath of the climax. Show consequences of the protagonist\x27s choice."
  | 9 => "Resolution Setup: Tie up loose threads. Prepare for the final outcome."
  | 10 => "CONCLUSION: Deliver the ending. Wrap up the story satisfyingly. Do NOT provide choices — this is the final scene."
  | _ => ""

/-- `isFinalTurn` as computed by the prompt builder. -/
def isFinalTurn (s : StoryState) : Bool := decide (s.maxTurns ≤ s.currentTurn)

/-- The history-context entry rendered for turn `i + 1`. -/
def historyEntry (i : Nat) (h : StoryTurnRecord) : String :=
  let entry := "--- Turn " ++ toString (i + 1) ++ " ---\n" ++ h.narrative
  if jsStrTruthy h.choiceMade then
    entry ++ "\n\n🎯 The player chose: \"" ++ (h.choiceMade.getD "") ++ "\""
  else entry

/-- The task line selected for the final turn. -/
def finalTaskLine : String :=
  "3. This is the FINAL turn. Write a satisfying conclusion that resolves the story threads from all previous turns. Do NOT provide any choices."

/-- The task line selected for every non-final turn. -/
def threeTaskLine : String :=
  "3. Provide exactly 3 distinct, meaningful choices for the player. Each choice should lead to a different narrative direction and be relevant to the current situation."

/-- The required-output choices shape on the final turn. -/
def zeroChoicesShape : String := "\"choices\": []"

/-- The required-output choices shape on every other turn. -/
def threeChoicesShape : String :=
  "\"choices\": [\"Choice 1 text\", \"Choice 2 text\", \"Choice 3 text\"]"

/-- `buildStoryPrompt` from the story service: renders the full instruction
text from the session state. -/
def buildStoryPrompt (storyState : StoryState) : String :=
  let pacingInstruction := PACING storyState.currentTurn
  let historyContext :=
    if storyState.history.length > 0 then
      String.intercalate "\n\n"
        (storyState.history.enum.map (fun p => historyEntry p.1 p.2))
    else
      "(No previous turns — this is the very beginning of the story.)"
  let lastChoice :=
    if storyState.history.length > 0 &&
        jsStrTruthy ((storyState.history.getLast?.map (·.choiceMade)).getD none) then
      "\n\n**IMPORTANT — The player just chose:** \"" ++
        ((storyState.history.getLast?.map (·.choiceMade)).getD none).getD "" ++
        "\"\nYour next story segment MUST directly continue from this choice. Show the immediate consequences and reactions."
    else ""
  "You are a masterful interactive fiction Storytelling AI. You are writing a continuous, evolving story. Each new turn MUST directly continue from the previous events and the player\x27s latest choice. Never restart, reset, or ignore previous story events.\n\n**Genre:** "
    ++ storyState.genre
    ++ "\n**Visual Style:** "
    ++ storyState.artStylePrompt
    ++ "\n**Current Turn:** "
    ++ toString storyState.currentTurn
    ++ " of "
    ++ toString storyState.maxTurns
    ++ "\n**Pacing Instruction:** "
    ++ pacingInstruction
    ++ "\n\n══════════════════════════════════\nCOMPLETE STORY SO FAR (you must continue from this):\n══════════════════════════════════\n"
    ++ historyContext
    ++ "\n══════════════════════════════════\n"
    ++ lastChoice
    ++ "\n\n**Your Task for Turn "
    ++ toString storyState.currentTurn
    ++ ":**\n1. Write the next story segment that DIRECTLY continues the narrative above. It must be vivid, immersive, and 100-150 words long. Write in second person (\"You...\"). Reference specific events, characters, and details from previous turns to maintain continuity.\n2. Create an image prompt for this scene. CRITICAL: The image prompt MUST begin with the exact phrase: \""
    ++ storyState.artStylePrompt
    ++ "\" followed by a detailed scene description.\n"
    ++ (if isFinalTurn storyState then finalTaskLine else threeTaskLine)
    ++ "\n\n**You MUST respond in this exact JSON format (no markdown fences, no extra text):**\n\x7b\n  \"narrative\": \"Your story text here...\",\n  \"imagePrompt\": \""
    ++ storyState.artStylePrompt
    ++ ", [detailed scene description]\",\n  "
    ++ (if isFinalTurn storyState then zeroChoicesShape else threeChoicesShape)
    ++ "\n\x7d"

/-- The rendered prompt text preceding the turn-specific task instruction
(everything up to and including the end of task item 2). -/
def promptHeadOf (s : StoryState) : String :=
  let pacingInstruction := PACING s.currentTurn
  let historyContext :=
    if s.history.length > 0 then
      String.intercalate "\n\n" (s.history.enum.map (fun p => historyEntry p.1 p.2))
    else
      "(No previous turns — this is the very beginning of the story.)"
  let lastChoice :=
    if s.history.length > 0 &&
        jsStrTruthy ((s.history.getLast?.map (·.choiceMade)).getD none) then
      "\n\n**IMPORTANT — The player just chose:** \"" ++
        ((s.history.getLast?.map (·.choiceMade)).getD none).getD "" ++
        "\"\nYour next story segment MUST directly continue from this choice. Show the immediate consequences and reactions."
    else ""
  "You are a masterful interactive fiction Storytelling AI. You are writing a continuous, evolving story. Each new turn MUST directly continue from the previous events and the player\x27s latest choice. Never restart, reset, or ignore previous story events.\n\n**Genre:** "
    ++ s.genre
    ++ "\n**Visual Style:** "
    ++ s.artStylePrompt
    ++ "\n**Current Turn:** "
    ++ toString s.currentTurn
    ++ " of "
    ++ toString s.maxTurns
    ++ "\n**Pacing Instruction:** "
    ++ pacingInstruction
    ++ "\n\n══════════════════════════════════\nCOMPLETE STORY SO FAR (you must continue from this):\n══════════════════════════════════\n"
    ++ historyContext
    ++ "\n══════════════════════════════════\n"
    ++ lastChoice
    ++ "\n\n**Your Task for Turn "
    ++ toString s.currentTurn
    ++ ":**\n1. Write the next story segment that DIRECTLY continues the narrative above. It must be vivid, immersive, and 100-150 words long. Write in second person (\"You...\"). Reference specific events, characters, and details from previous turns to maintain continuity.\n2. Create an image prompt for this scene. CRITICAL: The image prompt MUST begin with the exact phrase: \""
    ++ s.artStylePrompt
    ++ "\" followed by a detailed scene description.\n"

/-- The rendered prompt text between the task instruction and the
choices line of the required JSON shape. -/
def promptMidOf (s : StoryState) : String :=
  "\n\n**You MUST respond in this exact JSON format (no markdown fences, no extra text):**\n\x7b\n  \"narrative\": \"Your story text here...\",\n  \"imagePrompt\": \""
    ++ s.artStylePrompt
    ++ ", [detailed scene description]\",\n  "

/-- The rendered prompt text after the choices line. -/
def promptTail : String := "\n\x7d"

/-! ### Fallback orchestration -/

/-- The two external generation services. -/
inductive Provider where
  | gemini : Provider
  | openai : Provider
deriving DecidableEq

/-- The text-generation endpoints, as functions from prompt to either the raw
response text or the thrown error's message. -/
structure TextProviders where
  callGeminiText : String → Except String String
  callOpenAIText : String → Except String String

/-- The image-generation endpoints. -/
structure ImageProviders where
  callGeminiImage : String → Except String String
  callOpenAIImage : String → Except String String

/-- The parsed result with the orchestrator's `usedFallback` flag attached. -/
structure StoryContentResult where
  narrative : Json
  imagePrompt : Json
  choices : List Json
  usedFallback : Bool

/-- `parsed.usedFallback = usedFallback` from the source. -/
def withUsedFallback (g : GenerationResult) (b : Bool) : StoryContentResult :=
  { narrative := g.narrative, imagePrompt := g.imagePrompt
    choices := g.choices, usedFallback := b }

/-- The outcome of one `generateStoryContent` call, together with the
sequence of provider invocations it performed (provider, prompt). -/
structure StoryContentOutcome where
  result : Except String StoryContentResult
  calls : List (Provider × String)

/-- `generateStoryContent` from the story service: build the prompt, try
Gemini, on any error try OpenAI with the same prompt, and if both fail throw
an aggregate error carrying both messages. -/
def generateStoryContent (api : TextProviders) (storyState : StoryState) :
    StoryContentOutcome :=
  let prompt := buildStoryPrompt storyState
  match api.callGeminiText prompt with
  | .ok rawText =>
    { result := .ok (withUsedFallback (parseResponse rawText) false)
      calls := [(.gemini, prompt)] }
  | .error geminiError =>
    match api.callOpenAIText prompt with
    | .ok rawText =>
      { result := .ok (withUsedFallback (parseResponse rawText) true)
        calls := [(.gemini, prompt), (.openai, prompt)] }
    | .error openaiError =>
      { result := .error
          ("Both APIs failed. Gemini: " ++ geminiError ++ " | OpenAI: " ++ openaiError)
        calls := [(.gemini, prompt), (.openai, prompt)] }

/-- The art-style prefixing applied by `generateImage` before any provider
call: prepend the locked style unless the prompt already starts with it. -/
def applyArtStyle (imagePrompt artStylePrompt : String) : String :=
  if jsStartsWith imagePrompt artStylePrompt then imagePrompt
  else artStylePrompt ++ ", " ++ imagePrompt

/-- `generateImage` from the story service: style-prefix the prompt, try
Gemini then OpenAI, and return `none` (not an error) when both fail. Also
returns the provider invocations performed. -/
def generateImage (api : ImageProviders) (imagePrompt artStylePrompt : String) :
    Option String × List (Provider × String) :=
  let fullPrompt := applyArtStyle imagePrompt artStylePrompt
  match api.callGeminiImage fullPrompt with
  | .ok result => (some result, [(.gemini, fullPrompt)])
  | .error _ =>
    match api.callOpenAIImage fullPrompt with
    | .ok result => (some result, [(.gemini, fullPrompt), (.openai, fullPrompt)])
    | .error _ => (none, [(.gemini, fullPrompt), (.openai, fullPrompt)])

/-! ### Game store (React context + reducer) -/

/-- `MAX_TURNS` from the style configuration. -/
def MAX_TURNS : Nat := 10

/-- The `gamePhase` field's four values. -/
inductive GamePhase where
  | menu : GamePhase
  | loading : GamePhase
  | playing : GamePhase
  | epilogue : GamePhase
deriving DecidableEq

/-- A history entry appended by `MAKE_CHOICE`: the then-current narrative and
image paired with the chosen text. -/
structure HistoryEntry where
  turn : Nat
  narrative : Json
  image : Option String
  choiceMade : String

/-- The game store's state. -/
structure GameState where
  gamePhase : GamePhase
  currentTurn : Nat
  maxTurns : Nat
  language : String
  genre : String
  genreId : String
  artStylePrompt : String
  genreColor : String
  history : List HistoryEntry
  currentNarrative : Json
  currentImage : Option String
  currentChoices : List Json
  isLoading : Bool
  error : Option String
  usedFallback : Bool

/-- The payload of `SET_TURN_CONTENT`; `choices` and `usedFallback` may be
absent (the reducer defaults them). -/
structure TurnPayload where
  narrative : Json
  image : Option String
  choices : Option (List Json)
  usedFallback : Option Bool

/-- The reducer's action set. -/
inductive Action where
  | startGame (language genre genreId artStylePrompt color : String) : Action
  | setLoading (b : Bool) : Action
  | setTurnContent (payload : TurnPayload) : Action
  | makeChoice (choiceText : String) : Action
  | setError (message : String) : Action
  | resetGame : Action
  | restoreState (payload : GameState) : Action

/-- `initialState` from the game store. -/
def initialState : GameState :=
  { gamePhase := .menu
    currentTurn := 1
    maxTurns := MAX_TURNS
    language := "English"
    genre := ""
    genreId := ""
    artStylePrompt := ""
    genreColor := "#e040fb"
    history := []
    currentNarrative := .str ""
    currentImage := none
    currentChoices := []
    isLoading := false
    error := none
    usedFallback := false }

/-- `gameReducer` from the game store. (`RESET_GAME`'s `localStorage`
removal is modelled in the persistence layer below.) -/
def gameReducer (state : GameState) (action : Action) : GameState :=
  match action with
  | .startGame language genre genreId artStylePrompt color =>
    { initialState with
        gamePhase := .loading
        language := language
        genre := genre
        genreId := genreId
        artStylePrompt := artStylePrompt
        genreColor := color
        currentTurn := 1
        isLoading := true }
  | .setLoading b =>
    { state with
        isLoading := b
        gamePhase := if b then .loading else state.gamePhase }
  | .setTurnContent payload =>
    { state with
        gamePhase :=
          if state.maxTurns ≤ state.currentTurn then .epilogue else .playing
        currentNarrative := payload.narrative
        currentImage := payload.image
        currentChoices := payload.choices.getD []
        isLoading := false
        error := none
        usedFallback := payload.usedFallback.getD false }
  | .makeChoice choiceText =>
    { state with
        history := state.history ++
          [{ turn := state.currentTurn
             narrative := state.currentNarrative
             image := state.currentImage
             choiceMade := choiceText }]
        currentTurn := state.currentTurn + 1
        isLoading := true
        gamePhase := .loading
        currentChoices := [] }
  | .setError message =>
    { state with
        error := some message
        isLoading := false
        gamePhase := if state.history.length > 0 then .playing else .menu }
  | .resetGame => initialState
  | .restoreState payload => { payload with isLoading := false }

/-- Game states reachable through the reducer from `initialState`; a restore
may only replay a payload that was itself reachable (persisted payloads are
earlier saved states). -/
inductive ReachableG : GameState → Prop where
  | init : ReachableG initialState
  | step {s : GameState} (a : Action) (hs : ReachableG s)
      (hnr : ∀ p, a ≠ .restoreState p) : ReachableG (gameReducer s a)
  | restore {s p : GameState} (hs : ReachableG s) (hp : ReachableG p) :
      ReachableG (gameReducer s (.restoreState p))

/-! ### Persistence (GameProvider's localStorage effects) -/

/-- A running `GameProvider` together with the `localStorage` slot. -/
structure AppState where
  game : GameState
  storage : Option GameState

/-- The auto-save effect: persist the full state after any change whose
result is settled (not the menu and not loading); otherwise leave storage
untouched. -/
def autoSave (g : GameState) (storage : Option GameState) : Option GameState :=
  if g.gamePhase ≠ GamePhase.menu ∧ g.isLoading = false then some g else storage

/-- One dispatch as the provider performs it: reduce, apply `RESET_GAME`'s
storage removal, then run the auto-save effect on the new state. -/
def dispatchApp (a : AppState) (act : Action) : AppState :=
  let g := gameReducer a.game act
  let st :=
    match act with
    | .resetGame => none
    | _ => a.storage
  { game := g, storage := autoSave g st }

/-- A fresh launch against a given storage slot: the provider mounts with
`initialState`, the restore effect replays a persisted state only when it is
out of the menu with non-empty history, and the save effect then runs. -/
def launch (storage : Option GameState) : AppState :=
  let g :=
    match storage with
    | some p =>
      if p.gamePhase ≠ GamePhase.menu ∧ p.history.length > 0 then
        gameReducer initialState (.restoreState p)
      else initialState
    | none => initialState
  { game := g, storage := autoSave g storage }

/-! ### Concrete scenario data -/

/-- `big` contains `small` as a contiguous substring. -/
def containsStr (big small : String) : Prop :=
  ∃ a b : String, big = a ++ small ++ b

/-- A generic completed-turn history entry used by concrete scenarios. -/
def sampleHistoryEntry : HistoryEntry :=
  { turn := 1, narrative := Json.str "n", image := none, choiceMade := "c" }

/-- A session that has reached the final turn and is generating. -/
def sampleFinalState : GameState :=
  { initialState with
      gamePhase := .loading
      currentTurn := 10
      history := List.replicate 9 sampleHistoryEntry
      currentNarrative := Json.str "The ninth narrative"
      isLoading := true }

/-- The turn content the UI layer would build from a completely non-JSON
provider response (parsed by the last-resort stage). -/
def garbagePayload : TurnPayload :=
  { narrative := (parseResponse "The model replied with no JSON at all").narrative
    image := none
    choices := some (parseResponse "The model replied with no JSON at all").choices
    usedFallback := some false }

/-- A well-formed turn payload carrying three choices. -/
def choicePayload : TurnPayload :=
  { narrative := Json.str "The tale goes on"
    image := none
    choices := some [Json.str "A", Json.str "B", Json.str "C"]
    usedFallback := some false }

/-- One played turn: content arrives, then the player picks choice A. -/
def turnCycle : List Action := [.setTurnContent choicePayload, .makeChoice "A"]

/-- Start a game and play nine full turns, ending inside the final turn's
generation: turn 10, phase `loading`, nine history entries. -/
def nineTurnsTrace : List Action :=
  Action.startGame "English" "Fantasy" "fantasy" "Watercolor illustration" "#ffab40" ::
    (List.replicate 9 turnCycle).flatten

/-- Fold a trace of actions through the reducer from the initial state. -/
def runActions (acts : List Action) : GameState :=
  acts.foldl gameReducer initialState

/-- The app after a fresh launch, starting a Noir game and receiving the
first turn's content (a settled `playing` state at turn 1, empty history). -/
def firstTurnSavedApp : AppState :=
  dispatchApp
    (dispatchApp (launch none)
      (.startGame "English" "Noir Mystery" "noir"
        "Black and white, high contrast ink style, film noir, dramatic shadows, 1940s aesthetic"
        "#b0bec5"))
    (.setTurnContent choicePayload)

/-- A persisted mid-game state: phase `playing` with one history entry. -/
def savedPlayingState : GameState :=
  { initialState with gamePhase := .playing, history := [sampleHistoryEntry] }

/-! ### Shared lemmas -/

theorem hasLead_self_append (p r : List Char) : hasLead p (p ++ r) = true := by
  induction p with
  | nil => rfl
  | cons c cs ih => simp [hasLead, ih]

theorem strategy1_choices_le (s : String) (r : GenerationResult)
    (h : strategy1 s = some r) : r.choices.length ≤ 3 := by
  unfold strategy1 at h
  split at h
  · exact absurd h (by simp)
  · exact absurd h (by simp)
  · rename_i v hv
    cases h
    simp only
    split
    · rename_i xs hxs
      simp [List.length_take]
    · simp

theorem extractChoices_le (t : String) : (extractChoices t).length ≤ 3 := by
  unfold extractChoices
  split
  · simp
  · simp [List.length_take]

theorem strategy3_choices_le (rawText jsonStr : String) :
    (strategy3 rawText jsonStr).choices.length ≤ 3 := by
  unfold strategy3
  split
  · rename_i r hr
    exact strategy1_choices_le _ _ hr
  · simp [lastResort, fallbackChoices]

/-! ### Claim C6 -/

/-- Claim C6: for every input string the `choices` list in the result of
`parseResponse` has length at most 3, whichever branch of the cascade
(direct parse, regex field extraction, escape-repair reparse, or the
last-resort fallback) produced it. -/
theorem c6_choices_at_most_three (rawText : String) :
    (parseResponse rawText).choices.length ≤ 3 := by
  unfold parseResponse
  dsimp only
  split
  · rename_i r hr
    exact strategy1_choices_le _ _ hr
  · rename_i hr
    split
    · rename_i n hn
      split
      · exact strategy3_choices_le _ _
      · simp only
        split
        · simpa using extractChoices_le (preJsonStr rawText)
        · simp
    · exact strategy3_choices_le _ _

/-! ### Claim C7 -/

/-- Claim C7: the art-style prefixing performed by `generateImage` is
idempotent — the outgoing full prompt always begins with the style string,
re-applying the prefixing to an already-prefixed prompt changes nothing, and
every provider call of `generateImage` carries exactly that prefixed prompt. -/
theorem c7_style_prefixing_idempotent (api : ImageProviders)
    (imagePrompt artStylePrompt : String) :
    jsStartsWith (applyArtStyle imagePrompt artStylePrompt) artStylePrompt = true ∧
    applyArtStyle (applyArtStyle imagePrompt artStylePrompt) artStylePrompt =
      applyArtStyle imagePrompt artStylePrompt ∧
    ((generateImage api imagePrompt artStylePrompt).2 =
        [(.gemini, applyArtStyle imagePrompt artStylePrompt)] ∨
      (generateImage api imagePrompt artStylePrompt).2 =
        [(.gemini, applyArtStyle imagePrompt artStylePrompt),
         (.openai, applyArtStyle imagePrompt artStylePrompt)]) := by
  have hsw : jsStartsWith (applyArtStyle imagePrompt artStylePrompt)
      artStylePrompt = true := by
    unfold applyArtStyle
    split
    · assumption
    · show hasLead artStylePrompt.data (artStylePrompt ++ ", " ++ imagePrompt).data = true
      rw [String.data_append, String.data_append, List.append_assoc]
      exact hasLead_self_append _ _
  refine ⟨hsw, ?_, ?_⟩
  · unfold applyArtStyle
    rw [if_pos]
    exact hsw
  · unfold generateImage
    dsimp only
    split
    · exact Or.inl rfl
    · split
      · exact Or.inr rfl
      · exact Or.inr rfl

/-! ### Claim C2 -/

/-- Claim C2: when both providers fail, the text path raises an aggregated
error whose message contains both the Gemini and the OpenAI error message,
while the image path returns `none` instead of raising. -/
theorem c2_both_providers_fail
    (api : TextProviders) (s : StoryState) (ge oe : String)
    (hg : api.callGeminiText (buildStoryPrompt s) = .error ge)
    (ho : api.callOpenAIText (buildStoryPrompt s) = .error oe)
    (imgApi : ImageProviders) (scenePrompt stylePrompt ie₁ ie₂ : String)
    (hig : imgApi.callGeminiImage (applyArtStyle scenePrompt stylePrompt) = .error ie₁)
    (hio : imgApi.callOpenAIImage (applyArtStyle scenePrompt stylePrompt) = .error ie₂) :
    (∃ msg, (generateStoryContent api s).result = .error msg ∧
      containsStr msg ge ∧ containsStr msg oe) ∧
    (generateImage imgApi scenePrompt stylePrompt).1 = none := by
  constructor
  · refine ⟨"Both APIs failed. Gemini: " ++ ge ++ " | OpenAI: " ++ oe, ?_, ?_, ?_⟩
    · simp only [generateStoryContent, hg, ho]
    · exact ⟨"Both APIs failed. Gemini: ", " | OpenAI: " ++ oe,
        by rw [String.append_assoc]⟩
    · exact ⟨"Both APIs failed. Gemini: " ++ ge ++ " | OpenAI: ", "",
        by rw [String.append_empty]⟩
  · simp only [generateImage, hig, hio]

/-- Witness for C2 at concrete failing providers. -/
theorem c2_both_providers_fail_witness :
    (∃ msg,
      (generateStoryContent
        ⟨fun _ => .error "Gemini is down", fun _ => .error "OpenAI is down"⟩
        ⟨1, 10, "Fantasy", "Watercolor illustration", []⟩).result = .error msg ∧
      containsStr msg "Gemini is down" ∧ containsStr msg "OpenAI is down") ∧
    (generateImage ⟨fun _ => .error "g", fun _ => .error "o"⟩
      "a castle" "Watercolor illustration").1 = none :=
  c2_both_providers_fail
    ⟨fun _ => .error "Gemini is down", fun _ => .error "OpenAI is down"⟩
    ⟨1, 10, "Fantasy", "Watercolor illustration", []⟩
    "Gemini is down" "OpenAI is down" rfl rfl
    ⟨fun _ => .error "g", fun _ => .error "o"⟩
    "a castle" "Watercolor illustration" "g" "o" rfl rfl

/-! ### Claim C3 -/

/-- Claim C3: if the primary text call fails and the secondary succeeds,
`generateStoryContent` returns `usedFallback = true` with the parse of the
secondary's output, both providers having been called with the identical
prompt; if the primary succeeds, `usedFallback = false` and the secondary is
never invoked. -/
theorem c3_fallback_uses_identical_prompt (api : TextProviders) (s : StoryState) :
    (∀ ge raw, api.callGeminiText (buildStoryPrompt s) = .error ge →
      api.callOpenAIText (buildStoryPrompt s) = .ok raw →
      (generateStoryContent api s).result =
        .ok (withUsedFallback (parseResponse raw) true) ∧
      (generateStoryContent api s).calls =
        [(.gemini, buildStoryPrompt s), (.openai, buildStoryPrompt s)]) ∧
    (∀ raw, api.callGeminiText (buildStoryPrompt s) = .ok raw →
      (generateStoryContent api s).result =
        .ok (withUsedFallback (parseResponse raw) false) ∧
      (generateStoryContent api s).calls = [(.gemini, buildStoryPrompt s)]) := by
  constructor
  · intro ge raw hg ho
    constructor <;> simp only [generateStoryContent, hg, ho]
  · intro raw hg
    constructor <;> simp only [generateStoryContent, hg]

/-- Witness for C3: a primary-fails/secondary-succeeds pair and a
primary-succeeds pair at concrete providers. -/
theorem c3_fallback_uses_identical_prompt_witness :
    ((generateStoryContent ⟨fun _ => .error "boom", fun _ => .ok "backup text"⟩
        ⟨1, 10, "Fantasy", "Watercolor illustration", []⟩).result =
      .ok (withUsedFallback (parseResponse "backup text") true)) ∧
    ((generateStoryContent ⟨fun _ => .ok "primary text", fun _ => .error "unused"⟩
        ⟨1, 10, "Fantasy", "Watercolor illustration", []⟩).calls =
      [(.gemini, buildStoryPrompt ⟨1, 10, "Fantasy", "Watercolor illustration", []⟩)]) :=
  ⟨((c3_fallback_uses_identical_prompt
      ⟨fun _ => .error "boom", fun _ => .ok "backup text"⟩
      ⟨1, 10, "Fantasy", "Watercolor illustration", []⟩).1
      "boom" "backup text" rfl rfl).1,
   ((c3_fallback_uses_identical_prompt
      ⟨fun _ => .ok "primary text", fun _ => .error "unused"⟩
      ⟨1, 10, "Fantasy", "Watercolor illustration", []⟩).2
      "primary text" rfl).2⟩

theorem ofChars_eq_empty (cs : List Char) : ofChars cs = "" ↔ cs = [] := by
  show String.mk cs = "" ↔ cs = []
  rw [String.ext_iff]

theorem parse_of_strategy1 (rawText : String) (r : GenerationResult)
    (h : strategy1 (preJsonStr rawText) = some r) : parseResponse rawText = r := by
  unfold parseResponse
  dsimp only
  rw [h]

theorem parse_fallthrough (rawText : String)
    (h1 : strategy1 (preJsonStr rawText) = none)
    (h2 : extractField (preJsonStr rawText) "narrative" = none ∨
          extractField (preJsonStr rawText) "narrative" = some "") :
    parseResponse rawText = strategy3 rawText (preJsonStr rawText) := by
  unfold parseResponse
  dsimp only
  rw [h1]
  rcases h2 with h2 | h2 <;> rw [h2]
  rfl

theorem strategy1_defaults_narrative (s : String) (v w : Json)
    (hp : jsonParse s = some v) (hv : v ≠ Json.null)
    (hf : jsField v "narrative" = some w) (ht : jsTruthy w = false) :
    ∃ r, strategy1 s = some r ∧ r.narrative = Json.str "The story continues..." := by
  unfold strategy1
  rw [hp]
  cases v with
  | null => exact absurd rfl hv
  | bool b => exact ⟨_, rfl, by simp [jsOrStr, hf, ht]⟩
  | num lexeme => exact ⟨_, rfl, by simp [jsOrStr, hf, ht]⟩
  | str t => exact ⟨_, rfl, by simp [jsOrStr, hf, ht]⟩
  | arr elems => exact ⟨_, rfl, by simp [jsOrStr, hf, ht]⟩
  | obj fields => exact ⟨_, rfl, by simp [jsOrStr, hf, ht]⟩

/-! ### Claim C1 -/

/-- Claim C1 counterexample: on the empty input every cascade stage fails,
the choices are indeed the fixed three-option list, but the narrative is the
empty string — not non-empty as the claim states. -/
theorem c1_counterexample :
    (parseResponse "").choices = fallbackChoices ∧
    (parseResponse "").narrative = Json.str "" :=
  ⟨rfl, rfl⟩

/-- Claim C1 (amended): `parseResponse` is total by construction; whenever
every cascade stage fails to produce a usable narrative, the result is the
last-resort one — the fixed three-option choice list, and as narrative the
raw text stripped of brace and quote characters truncated to 500 characters,
which is non-empty exactly when the raw text contains some character other
than a brace or a double quote. -/
theorem c1_garbage_fallback (rawText : String)
    (h1 : strategy1 (preJsonStr rawText) = none)
    (h2 : extractField (preJsonStr rawText) "narrative" = none ∨
          extractField (preJsonStr rawText) "narrative" = some "")
    (h3 : strategy1 (jsRepair (preJsonStr rawText)) = none) :
    parseResponse rawText = lastResort rawText ∧
    (parseResponse rawText).choices = fallbackChoices ∧
    ((parseResponse rawText).narrative ≠ Json.str "" ↔
      ∃ c ∈ rawText.data, ¬(c = '{' ∨ c = '}' ∨ c = '"')) := by
  have hpr : parseResponse rawText = lastResort rawText := by
    rw [parse_fallthrough rawText h1 h2]
    unfold strategy3
    rw [h3]
  refine ⟨hpr, by rw [hpr]; rfl, ?_⟩
  rw [hpr]
  simp only [lastResort, ne_eq, Json.str.injEq]
  rw [ofChars_eq_empty, List.take_eq_nil_iff]
  simp [List.filter_eq_nil_iff]

/-- Witness for the amended C1 at the garbage input `"hello"`. -/
theorem c1_garbage_fallback_witness :
    strategy1 (preJsonStr "hello") = none ∧
    parseResponse "hello" = lastResort "hello" ∧
    (parseResponse "hello").narrative ≠ Json.str "" :=
  ⟨rfl, (c1_garbage_fallback "hello" rfl (Or.inl rfl) rfl).1,
    ((c1_garbage_fallback "hello" rfl (Or.inl rfl) rfl).2.2).mpr
      ⟨'h', by simp, by simp⟩⟩

/-! ### Claim C10 -/

/-- Claim C10: in the direct-parse and escape-repair branches, a `narrative`
field that is present but falsy (in particular the empty string) is replaced
by the placeholder `The story continues...`. -/
theorem c10_present_empty_narrative_defaulted (rawText : String) (v w : Json) :
    ((jsonParse (preJsonStr rawText) = some v → v ≠ Json.null →
      jsField v "narrative" = some w → jsTruthy w = false →
      (parseResponse rawText).narrative = Json.str "The story continues...") ∧
     (strategy1 (preJsonStr rawText) = none →
      (extractField (preJsonStr rawText) "narrative" = none ∨
       extractField (preJsonStr rawText) "narrative" = some "") →
      jsonParse (jsRepair (preJsonStr rawText)) = some v → v ≠ Json.null →
      jsField v "narrative" = some w → jsTruthy w = false →
      (parseResponse rawText).narrative = Json.str "The story continues...")) := by
  constructor
  · intro hp hv hf ht
    obtain ⟨r, hr, hn⟩ := strategy1_defaults_narrative _ v w hp hv hf ht
    rw [parse_of_strategy1 rawText r hr, hn]
  · intro h1 h2 hp hv hf ht
    obtain ⟨r, hr, hn⟩ := strategy1_defaults_narrative _ v w hp hv hf ht
    rw [parse_fallthrough rawText h1 h2]
    unfold strategy3
    rw [hr, hn]

/-- Witness for C10: a well-formed JSON response with an empty narrative
(direct branch) and a malformed one whose escape-repair reparse has an empty
narrative (repair branch) both yield the placeholder. -/
theorem c10_present_empty_narrative_defaulted_witness :
    (parseResponse "\x7b\"narrative\": \"\", \"imagePrompt\": \"x\", \"choices\": []\x7d").narrative =
      Json.str "The story continues..." ∧
    (parseResponse "\x7b\"narrative\": \"\", \"imagePrompt\": \"a \"b\", \"choices\": []\x7d").narrative =
      Json.str "The story continues..." :=
  ⟨(c10_present_empty_narrative_defaulted
      "\x7b\"narrative\": \"\", \"imagePrompt\": \"x\", \"choices\": []\x7d"
      (Json.obj [("narrative", Json.str ""), ("imagePrompt", Json.str "x"),
        ("choices", Json.arr [])])
      (Json.str "")).1 rfl (fun h => nomatch h) rfl rfl,
   (c10_present_empty_narrative_defaulted
      "\x7b\"narrative\": \"\", \"imagePrompt\": \"a \"b\", \"choices\": []\x7d"
      (Json.obj [("narrative", Json.str ""), ("imagePrompt", Json.str "a \"b"),
        ("choices", Json.arr [])])
      (Json.str "")).2 rfl (Or.inr rfl) rfl (fun h => nomatch h) rfl rfl⟩

/-! ### Claim C4 -/

/-- Claim C4 counterexample: at turn 10 a generation cycle whose response
was parsed by the last-resort stage ends with phase `epilogue` but with the
fixed three fallback choices — not an empty choices list as the claim
states. -/
theorem c4_counterexample :
    (gameReducer sampleFinalState (.setTurnContent garbagePayload)).gamePhase =
      GamePhase.epilogue ∧
    (gameReducer sampleFinalState (.setTurnContent garbagePayload)).currentChoices =
      fallbackChoices ∧
    fallbackChoices ≠ [] :=
  ⟨rfl, rfl, by simp [fallbackChoices]⟩

/-- Claim C4 (amended): when `currentTurn ≥ maxTurns`, completing a
generation cycle always moves the phase to `epilogue`, and the stored
choices are exactly the choices of the parsed payload — empty only when the
payload's choices are empty (the last-resort parser stage supplies the fixed
three options instead). -/
theorem c4_final_turn_epilogue (s : GameState) (payload : TurnPayload)
    (h : s.maxTurns ≤ s.currentTurn) :
    (gameReducer s (.setTurnContent payload)).gamePhase = GamePhase.epilogue ∧
    (gameReducer s (.setTurnContent payload)).currentChoices =
      payload.choices.getD [] := by
  unfold gameReducer
  exact ⟨by simp [h], rfl⟩

/-- Witness for the amended C4 at the concrete final-turn state. -/
theorem c4_final_turn_epilogue_witness :
    sampleFinalState.maxTurns ≤ sampleFinalState.currentTurn ∧
    (gameReducer sampleFinalState (.setTurnContent garbagePayload)).gamePhase =
      GamePhase.epilogue :=
  ⟨by decide, (c4_final_turn_epilogue sampleFinalState garbagePayload (by decide)).1⟩

/-! ### Claim C5 -/

theorem reachable_turn_history (s : GameState) (h : ReachableG s) :
    s.currentTurn = s.history.length + 1 ∧
    (s.gamePhase = GamePhase.epilogue → s.maxTurns ≤ s.currentTurn) := by
  induction h with
  | init => exact ⟨rfl, fun hep => nomatch hep⟩
  | @step s a hs hnr ih =>
    cases a with
    | startGame language genre genreId artStylePrompt color =>
      exact ⟨rfl, fun hep => nomatch hep⟩
    | setLoading b =>
      refine ⟨ih.1, ?_⟩
      intro hep
      show s.maxTurns ≤ s.currentTurn
      by_cases hb : b
      · rw [show (gameReducer s (.setLoading b)).gamePhase =
            (if b then GamePhase.loading else s.gamePhase) from rfl, hb] at hep
        exact absurd hep (by simp)
      · rw [show (gameReducer s (.setLoading b)).gamePhase =
            (if b then GamePhase.loading else s.gamePhase) from rfl,
          if_neg hb] at hep
        exact ih.2 hep
    | setTurnContent payload =>
      refine ⟨ih.1, ?_⟩
      intro hep
      show s.maxTurns ≤ s.currentTurn
      by_cases hc : s.maxTurns ≤ s.currentTurn
      · exact hc
      · rw [show (gameReducer s (.setTurnContent payload)).gamePhase =
            (if s.maxTurns ≤ s.currentTurn then GamePhase.epilogue
              else GamePhase.playing) from rfl, if_neg hc] at hep
        exact absurd hep (by simp)
    | makeChoice choiceText =>
      constructor
      · simp only [gameReducer, List.length_append]
        simp [ih.1]
      · intro hep
        exact absurd hep (by simp [gameReducer])
    | setError message =>
      refine ⟨ih.1, ?_⟩
      intro hep
      rw [show (gameReducer s (.setError message)).gamePhase =
          (if s.history.length > 0 then GamePhase.playing else GamePhase.menu)
          from rfl] at hep
      split at hep <;> exact absurd hep (by simp)
    | resetGame => exact ⟨rfl, fun hep => nomatch hep⟩
    | restoreState p => exact absurd rfl (hnr p)
  | @restore s p hs hp ihs ihp => exact ⟨ihp.1, ihp.2⟩

/-- Claim C5 counterexample: a reachable state (explicit action trace) at
`currentTurn = maxTurns = 10` with nine produced turn results and a current
narrative, yet in phase `loading` — so "`currentTurn ≥ maxTurns` and a turn
result has been produced" does not imply phase `epilogue`. -/
theorem c5_counterexample :
    (runActions nineTurnsTrace).currentTurn = 10 ∧
    (runActions nineTurnsTrace).maxTurns = 10 ∧
    (runActions nineTurnsTrace).history.length = 9 ∧
    (runActions nineTurnsTrace).currentNarrative = Json.str "The tale goes on" ∧
    (runActions nineTurnsTrace).gamePhase = GamePhase.loading :=
  ⟨rfl, rfl, rfl, rfl, rfl⟩

/-- Claim C5 (amended): in every state reachable through the reducer,
`history.length = currentTurn - 1` (in every phase, in particular `playing`
and `loading`), and phase `epilogue` implies `currentTurn ≥ maxTurns`; the
converse implication fails (see the counterexample). -/
theorem c5_history_length_invariant (s : GameState) (h : ReachableG s) :
    s.history.length = s.currentTurn - 1 ∧
    (s.gamePhase = GamePhase.epilogue → s.maxTurns ≤ s.currentTurn) := by
  obtain ⟨h1, h2⟩ := reachable_turn_history s h
  exact ⟨by omega, h2⟩

/-- Witness for the amended C5 at the initial state. -/
theorem c5_history_length_invariant_witness :
    initialState.history.length = initialState.currentTurn - 1 ∧
    (initialState.gamePhase = GamePhase.epilogue →
      initialState.maxTurns ≤ initialState.currentTurn) :=
  c5_history_length_invariant initialState ReachableG.init

/-! ### Claim C9 -/

/-- Claim C9 counterexample: after starting a game and completing the first
turn, the full state is persisted in phase `playing` at turn 1 — a game in
progress — yet a relaunch against that storage lands in the menu (the
restore guard requires non-empty history), so not every persisted
in-progress state is restored. -/
theorem c9_counterexample :
    firstTurnSavedApp.storage.map (·.gamePhase) = some GamePhase.playing ∧
    firstTurnSavedApp.storage.map (·.currentTurn) = some 1 ∧
    (launch firstTurnSavedApp.storage).game.gamePhase = GamePhase.menu :=
  ⟨rfl, rfl, rfl⟩

/-- Claim C9 (amended): the full state is saved after every settled
transition out of the menu (phase not `menu`, not loading); a persisted
state is restored on the next launch exactly when its history is non-empty,
entering its persisted phase with `isLoading` cleared; a persisted state
with empty history (a turn-1 game in progress) is discarded and the next
launch starts at the menu. -/
theorem c9_save_restore (a : AppState) (act : Action) (p : GameState) :
    ((gameReducer a.game act).gamePhase ≠ GamePhase.menu →
      (gameReducer a.game act).isLoading = false →
      (dispatchApp a act).storage = some (gameReducer a.game act)) ∧
    (p.gamePhase ≠ GamePhase.menu → p.history.length > 0 →
      (launch (some p)).game = { p with isLoading := false }) ∧
    (p.history.length = 0 → (launch (some p)).game = initialState) := by
  refine ⟨?_, ?_, ?_⟩
  · intro h1 h2
    unfold dispatchApp autoSave
    dsimp only
    rw [if_pos ⟨h1, h2⟩]
  · intro h1 h2
    unfold launch
    dsimp only
    rw [if_pos ⟨h1, h2⟩]
    rfl
  · intro h0
    unfold launch
    dsimp only
    rw [if_neg (fun hand => by omega)]

/-- Witness for the amended C9: a settled first-turn transition is saved,
and a persisted playing state with history is restored verbatim with
`isLoading` cleared. -/
theorem c9_save_restore_witness :
    (dispatchApp ⟨initialState, none⟩ (.setTurnContent choicePayload)).storage =
      some (gameReducer initialState (.setTurnContent choicePayload)) ∧
    (launch (some savedPlayingState)).game =
      { savedPlayingState with isLoading := false } :=
  ⟨(c9_save_restore ⟨initialState, none⟩ (.setTurnContent choicePayload)
      savedPlayingState).1 (by decide) (by decide),
   (c9_save_restore ⟨initialState, none⟩ (.setTurnContent choicePayload)
      savedPlayingState).2.1 (by decide) (by decide)⟩

/-! ### Claim C8 -/

/-- Claim C8: `buildStoryPrompt` computes `isFinalTurn` as
`currentTurn ≥ maxTurns`; the rendered prompt consists of fixed surrounding
text with the zero-choices task instruction and the `"choices": []` output
shape exactly when `isFinalTurn` holds, and the exactly-3-choices
instruction and three-choice shape otherwise. -/
theorem c8_final_turn_requests_zero_choices (s : StoryState) :
    (isFinalTurn s = true ↔ s.maxTurns ≤ s.currentTurn) ∧
    buildStoryPrompt s =
      promptHeadOf s ++ (if isFinalTurn s then finalTaskLine else threeTaskLine) ++
        promptMidOf s ++
        (if isFinalTurn s then zeroChoicesShape else threeChoicesShape) ++
        promptTail ∧
    (isFinalTurn s = true → containsStr (buildStoryPrompt s) zeroChoicesShape) ∧
    (isFinalTurn s = false → containsStr (buildStoryPrompt s) threeChoicesShape) := by
  have heq : buildStoryPrompt s =
      promptHeadOf s ++ (if isFinalTurn s then finalTaskLine else threeTaskLine) ++
        promptMidOf s ++
        (if isFinalTurn s then zeroChoicesShape else threeChoicesShape) ++
        promptTail := by
    unfold buildStoryPrompt promptHeadOf promptMidOf promptTail
    by_cases h : isFinalTurn s <;> simp [h, String.append_assoc]
  refine ⟨by rw [isFinalTurn]; exact decide_eq_true_iff, heq, ?_, ?_⟩
  · intro h
    rw [heq, h]
    exact ⟨promptHeadOf s ++ finalTaskLine ++ promptMidOf s, promptTail,
      by simp [String.append_assoc]⟩
  · intro h
    rw [heq, h]
    exact ⟨promptHeadOf s ++ threeTaskLine ++ promptMidOf s, promptTail,
      by simp [String.append_assoc]⟩

/-- Witness for C8: the final-turn prompt contains the zero-choices shape,
the turn-1 prompt contains the three-choice shape. -/
theorem c8_final_turn_requests_zero_choices_witness :
    containsStr (buildStoryPrompt ⟨10, 10, "Noir Mystery", "Ink style", []⟩)
      zeroChoicesShape ∧
    containsStr (buildStoryPrompt ⟨1, 10, "Noir Mystery", "Ink style", []⟩)
      threeChoicesShape :=
  ⟨(c8_final_turn_requests_zero_choices ⟨10, 10, "Noir Mystery", "Ink style", []⟩).2.2.1
      rfl,
   (c8_final_turn_requests_zero_choices ⟨1, 10, "Noir Mystery", "Ink style", []⟩).2.2.2
      rfl⟩

end Unfoldy
